import Mathlib

/-
Shallow embedding of the IndigoServer data-access layer (src/orm.py).

The embedding models:
  - Python runtime values as far as the ORM inspects them (PyVal), together
    with the pieces of Python semantics the code relies on: truthiness,
    isinstance checks against int / str / bool / collections.abc.Sequence,
    the numbers tower (numbers.Integral, numbers.Rational), len(), list().
  - Field validation (Field.validate and the subclass overrides) and the
    descriptor protocol set/get (Field.__set__ / Field.__get__).
  - Schema registration (ModelMeta.__init__).
  - SQL generation for get / insert / update / delete (Model.get,
    Model.insert, Model.update, Model.delete and the two static helpers).
  - The execution engine (execute) as an event trace over an abstract
    statement outcome, and instance construction (Model.__init__) with
    explicit default-provider counter state (itertools.count).
-/

namespace Indigo

/-- Python runtime values, as far as the ORM inspects them.  A float is
carried as a rational number tag (the code never computes with the value,
it only asks isinstance questions).  Lists stand for Python lists and
tuples (both are collections.abc.Sequence). -/
inductive PyVal where
  | int (n : ℤ)
  | bool (b : Bool)
  | float (q : ℚ)
  | str (s : String)
  | list (xs : List PyVal)
deriving Repr

/-- Python truthiness, bool(v): zero numbers, the empty string and the
empty list are falsy. -/
def PyVal.truthy : PyVal → Bool
  | .int n => n ≠ 0
  | .bool b => b
  | .float q => q ≠ 0
  | .str s => s ≠ ""
  | .list xs => !xs.isEmpty

/-- Python isinstance(v, int).  bool is a subclass of int. -/
def PyVal.isInstInt : PyVal → Bool
  | .int _ => true
  | .bool _ => true
  | _ => false

/-- Python isinstance(v, numbers.Integral): int and bool register as
Integral; float and str do not. -/
def PyVal.isInstIntegral : PyVal → Bool
  | .int _ => true
  | .bool _ => true
  | _ => false

/-- Python isinstance(v, numbers.Rational).  int and bool are Integral and
hence Rational.  CPython registers float as numbers.Real but NOT as
numbers.Rational, so every float value fails this check. -/
def PyVal.isInstRational : PyVal → Bool
  | .int _ => true
  | .bool _ => true
  | _ => false

/-- Python isinstance(v, str). -/
def PyVal.isInstStr : PyVal → Bool
  | .str _ => true
  | _ => false

/-- Python isinstance(v, bool).  bool cannot be subclassed, so this is an
exact type check. -/
def PyVal.isInstBool : PyVal → Bool
  | .bool _ => true
  | _ => false

/-- Python isinstance(v, collections.abc.Sequence): str, list and tuple
are Sequences; int, bool and float are not. -/
def PyVal.isInstSequence : PyVal → Bool
  | .str _ => true
  | .list _ => true
  | _ => false

/-- Python len(v) for the Sequence values (none for values on which len
raises). -/
def PyVal.pyLen : PyVal → Option Nat
  | .str s => some s.length
  | .list xs => some xs.length
  | _ => none

/-- Python list(v) for a Sequence value: a string explodes into its
one-character strings, a list stays itself. -/
def PyVal.pyList : PyVal → List PyVal
  | .str s => s.toList.map (fun c => .str (String.mk [c]))
  | .list xs => xs
  | _ => []

/-- The four Field subclasses in src/orm.py: IntegerField, StringField,
BooleanField, FloatField. -/
inductive FieldKind where
  | integer
  | string
  | boolean
  | float
deriving DecidableEq, Repr

/-- The d_type each subclass passes to Field.validate: numbers.Integral
for IntegerField, str for StringField, bool for BooleanField and
numbers.Rational for FloatField. -/
def FieldKind.dtypeCheck : FieldKind → PyVal → Bool
  | .integer, v => v.isInstIntegral
  | .string, v => v.isInstStr
  | .boolean, v => v.isInstBool
  | .float, v => v.isInstRational

/-- Field.validate: raises TypeError (the ValidationError of the spec)
when the isinstance check fails, otherwise returns the value. -/
def validate (k : FieldKind) (v : PyVal) : Except String PyVal :=
  if k.dtypeCheck v then .ok v else .error "TypeError"

/-- The per-instance storage dict (instance.__dict__ restricted to the
storage names the descriptors use). -/
def StorageDict := List (String × PyVal)

/-- setattr on the storage dict: overwrite the entry if present, append
otherwise. -/
def setattrD (inst : StorageDict) (name : String) (v : PyVal) : StorageDict :=
  match inst with
  | [] => [(name, v)]
  | (k, w) :: rest =>
      if k = name then (name, v) :: rest else (k, w) :: setattrD rest name v

/-- getattr on the storage dict. -/
def getattrD (inst : StorageDict) (name : String) : Option PyVal :=
  match inst with
  | [] => none
  | (k, w) :: rest => if k = name then some w else getattrD rest name

/-- Field.__set__: validate first; only on success reach the setattr.
When validate raises, the exception propagates and the instance dict is
untouched, so the raising branch returns the dict unchanged together with
the error. -/
def fieldSet (k : FieldKind) (storageName : String) (inst : StorageDict)
    (v : PyVal) : StorageDict × Option String :=
  match validate k v with
  | .error e => (inst, some e)
  | .ok v2 => (setattrD inst storageName v2, none)

/-- Field.__get__ on an instance: reads the storage slot. -/
def fieldGet (storageName : String) (inst : StorageDict) : Option PyVal :=
  getattrD inst storageName

/-! ## Schema registration: ModelMeta.__init__ -/

/-- One entry of the class attribute dict, as ModelMeta.__init__ inspects
it: either a Field descriptor (with its kind, its primary_key flag and
whether its default is an Iterator) or any other attribute, which the
registration loop skips. -/
inductive Attr where
  | field (kind : FieldKind) (primaryKey : Bool) (iterDefault : Bool)
  | other
deriving Repr

def Attr.isField : Attr → Bool
  | .field _ _ _ => true
  | .other => false

/-- Python truthiness of the primary_key accumulator in the registration
loop: None is falsy, a string is truthy when nonempty. -/
def optStrTruthy : Option String → Bool
  | none => false
  | some s => s ≠ ""

/-- Class metadata that ModelMeta.__init__ assigns on the class:
__table__, __fields__, __primary_key__ and the keys of __default__
(insertion order of the default mapping). -/
structure Meta where
  table : String
  fields : List String
  primaryKey : Option String
  defaults : List String
deriving Repr

/-- The for-loop body of ModelMeta.__init__ folded over the attribute
dict in insertion order: every Field attribute name is appended to the
fields list; a Field with primary_key set raises RuntimeError when the
primary_key accumulator is already truthy, else records the name; a Field
whose default is an Iterator is recorded in the default mapping. -/
def metaLoop :
    List (String × Attr) → List String → Option String → List String →
    Except String (List String × Option String × List String)
  | [], fields, pk, defs => .ok (fields, pk, defs)
  | (_, .other) :: rest, fields, pk, defs => metaLoop rest fields pk defs
  | (k, .field _ isPk hasIter) :: rest, fields, pk, defs =>
      let fields2 := fields ++ [k]
      let defs2 := if hasIter then defs ++ [k] else defs
      if isPk then
        if optStrTruthy pk then .error "RuntimeError: Duplicated primary key"
        else metaLoop rest fields2 (some k) defs2
      else metaLoop rest fields2 pk defs2

/-- ModelMeta.__init__ for a class named name (not the Model base class):
run the registration loop; only when it completes without raising are
__table__, __fields__, __primary_key__ and __default__ assigned.  A raise
inside the loop happens before any of the four assignments, so an error
result registers no metadata at all. -/
def modelMeta (name : String) (attrs : List (String × Attr)) :
    Except String Meta :=
  match metaLoop attrs [] none [] with
  | .error e => .error e
  | .ok (fields, pk, defs) => .ok ⟨name, fields, pk, defs⟩

/-! ## SQL generation -/

/-- Python sep.join(parts). -/
def pyJoin (sep : String) : List String → String
  | [] => ""
  | [x] => x
  | x :: xs => x ++ sep ++ pyJoin sep xs

/-- Model.create_args_string: a comma-separated run of placeholders. -/
def create_args_string (num : Nat) : String :=
  pyJoin ", " (List.replicate num "?")

/-- Model.create_kwargs_string: backquoted key=? pairs, comma-separated. -/
def create_kwargs_string (keys : List String) : String :=
  pyJoin ", " (keys.map (fun k => "`" ++ k ++ "`=?"))

/-- Formatting of the __primary_key__ slot into an SQL template.  The
code formats the attribute directly; a class with no primary key holds
None there and Python formats it as the word None. -/
def Meta.pkStr (m : Meta) : String :=
  match m.primaryKey with
  | some s => s
  | none => "None"

/-- Model.insert template: insert into the table with one placeholder per
entry of __fields__. -/
def insertSql (m : Meta) : String :=
  "insert into `" ++ m.table ++ "` values (" ++
    create_args_string m.fields.length ++ ");"

/-- Model.insert args: the values of every name in __fields__, in order. -/
def insertArgs (m : Meta) (vals : String → PyVal) : List PyVal :=
  m.fields.map vals

/-- Model.update template.  The SET clause is built from __fields__,
which (per ModelMeta) contains every Field attribute including the
primary key. -/
def updateSql (m : Meta) : String :=
  "update `" ++ m.table ++ "` set " ++ create_kwargs_string m.fields ++
    " where `" ++ m.pkStr ++ "`=?;"

/-- Model.update args: the values of every name in __fields__ in order,
followed by the primary key value. -/
def updateArgs (m : Meta) (vals : String → PyVal) : List PyVal :=
  m.fields.map vals ++ [vals m.pkStr]

/-- Model.delete template. -/
def deleteSql (m : Meta) : String :=
  "delete from `" ++ m.table ++ "` where `" ++ m.pkStr ++ "`=?"

/-- Model.delete args. -/
def deleteArgs (m : Meta) (vals : String → PyVal) : List PyVal :=
  [vals m.pkStr]

/-- What the spec (4.3 QueryBuilder) prescribes for the update SET
clause: only the non-primary-key fields.  Stated for comparison against
updateSql, which is taken from the code. -/
def specUpdateSetFields (m : Meta) : List String :=
  m.fields.filter (fun f => f ≠ m.pkStr)

/-- The update template as the spec words it: SET lists only the
non-primary-key fields (in declared order), then the where clause on the
primary key. -/
def specUpdateSql (m : Meta) : String :=
  "update `" ++ m.table ++ "` set " ++
    create_kwargs_string (specUpdateSetFields m) ++
    " where `" ++ m.pkStr ++ "`=?;"

/-- The update args as the spec words them: non-key field values in
declared order followed by the primary key value. -/
def specUpdateArgs (m : Meta) (vals : String → PyVal) : List PyVal :=
  (specUpdateSetFields m).map vals ++ [vals m.pkStr]

/-- The statement parts and args Model.get has accumulated after the
filter and orderby steps, before the limit step.  filters is the kwargs
mapping after orderby and limit are popped, in caller order.  For each
filter pair the part added is the literal string of the source — the
column position holds a backquoted placeholder — and the key and the
value are both appended to the args. -/
def getSqlBase (table : String) (filters : List (String × PyVal))
    (orderby : Option String) : List String × List PyVal :=
  let sql0 : List String := ["select * from `" ++ table ++ "`"]
  let args0 : List PyVal := []
  let sql1 :=
    if filters.length ≠ 0 then
      sql0 ++ ["where", pyJoin " and " (filters.map (fun _ => "`?`=?"))]
    else sql0
  let args1 :=
    if filters.length ≠ 0 then
      args0 ++ filters.flatMap (fun kv => [PyVal.str kv.1, kv.2])
    else args0
  let sql2 :=
    match orderby with
    | some ob => if ob ≠ "" then sql1 ++ ["order by `?`"] else sql1
    | none => sql1
  let args2 :=
    match orderby with
    | some ob => if ob ≠ "" then args1 ++ [PyVal.str ob] else args1
    | none => args1
  (sql2, args2)

/-- The limit step of Model.get followed by the final space-join with a
trailing semicolon.  A truthy limit appends the limit keyword and then
one placeholder for an int, a placeholder pair for a two-element
Sequence, and raises ValueError otherwise; a falsy limit is skipped
entirely by the if statement. -/
def limitStep (sqlParts : List String) (args : List PyVal) :
    Option PyVal → Except String (String × List PyVal)
  | none => .ok (pyJoin " " sqlParts ++ ";", args)
  | some l =>
      if l.truthy then
        if l.isInstInt then
          .ok (pyJoin " " (sqlParts ++ ["limit", "?"]) ++ ";", args ++ [l])
        else if l.isInstSequence && l.pyLen == some 2 then
          .ok (pyJoin " " (sqlParts ++ ["limit", "?,?"]) ++ ";",
               args ++ l.pyList)
        else .error "ValueError: limit must be an integer or binary sequence"
      else .ok (pyJoin " " sqlParts ++ ";", args)

/-- Model.get, the pure SQL/args-building part (everything before the
await select call); a raise is returned as an error. -/
def Model_get_sql (table : String) (filters : List (String × PyVal))
    (orderby : Option String) (limit : Option PyVal) :
    Except String (String × List PyVal) :=
  limitStep (getSqlBase table filters orderby).1
    (getSqlBase table filters orderby).2 limit

/-- The database calls Model.get performs: the await select happens only
after the SQL/args build completes, so a ValueError from the limit branch
reaches the caller before any statement is issued. -/
inductive DbCall where
  | selectCall (sql : String) (args : List PyVal)
deriving Repr

/-- Model.get as a call trace: on a build error no select is issued. -/
def Model_get_calls (table : String) (filters : List (String × PyVal))
    (orderby : Option String) (limit : Option PyVal) :
    List DbCall × Except String Unit :=
  match Model_get_sql table filters orderby limit with
  | .error e => ([], .error e)
  | .ok (s, a) => ([.selectCall s a], .ok ())

/-! ## The execution engine: execute -/

/-- Events of one execute call, in order of occurrence: acquiring a pool
connection, issuing the statement, committing, rolling back, releasing
the connection back to the pool. -/
inductive EngineEv where
  | acquire
  | execStmt
  | commit
  | rollback
  | release
deriving DecidableEq, Repr

/-- The outcomes of the two awaited driver calls inside the try block:
the statement execution (which on success reports the affected rowcount)
and the commit.  execute itself has no influence on them; they are the
abstract inputs of the embedding. -/
structure DriverOutcome where
  stmt : Except String ℤ
  commitRes : Except String Unit

/-- The execute coroutine of src/orm.py.  The async-with pool acquisition
releases the connection on every exit path.  Inside it, the try block
runs the statement, reads cur.rowcount and commits; on success the
rowcount is returned after the commit.  Any exception from the try block
triggers a rollback and is then re-raised unchanged.  The result is the
value returned (or the exception propagated) together with the ordered
event trace. -/
def execute (d : DriverOutcome) : Except String ℤ × List EngineEv :=
  match d.stmt with
  | .error e => (.error e, [.acquire, .execStmt, .rollback, .release])
  | .ok affected =>
      match d.commitRes with
      | .error e => (.error e, [.acquire, .execStmt, .rollback, .release])
      | .ok _ =>
          (.ok affected, [.acquire, .execStmt, .commit, .release])

/-! ## Instance mutations: insert / update / delete -/

/-- Events of one Model-level mutation: the single execute call with its
SQL and args, and the logging.warn emitted when the affected count is
below one.  The warn event carries the primary key value the message is
formatted from. -/
inductive OpEv where
  | execCall (sql : String) (args : List PyVal)
  | warnLow (pk : PyVal)
deriving Repr

/-- Model.insert / update / delete share one shape: build SQL and args,
await execute once, and emit a warning when the result is below 1; an
exception from execute propagates.  The shared shape, parameterized by
the built SQL and args. -/
def mutationOp (sql : String) (args : List PyVal) (pkVal : PyVal)
    (execRes : Except String ℤ) : Except String (List OpEv) :=
  match execRes with
  | .error e => .error e
  | .ok n =>
      if n < 1 then .ok [.execCall sql args, .warnLow pkVal]
      else .ok [.execCall sql args]

/-- Model.insert, as the event trace of its single execute call. -/
def Model_insert (m : Meta) (vals : String → PyVal)
    (execRes : Except String ℤ) : Except String (List OpEv) :=
  mutationOp (insertSql m) (insertArgs m vals) (vals m.pkStr) execRes

/-- Model.update, as the event trace of its single execute call. -/
def Model_update (m : Meta) (vals : String → PyVal)
    (execRes : Except String ℤ) : Except String (List OpEv) :=
  mutationOp (updateSql m) (updateArgs m vals) (vals m.pkStr) execRes

/-- Model.delete, as the event trace of its single execute call. -/
def Model_delete (m : Meta) (vals : String → PyVal)
    (execRes : Except String ℤ) : Except String (List OpEv) :=
  mutationOp (deleteSql m) (deleteArgs m vals) (vals m.pkStr) execRes

/-! ## Instance construction: Model.__init__ -/

/-- State of the default providers: the itertools.count iterator of each
defaulted field, represented by the value its next call will produce.
The counters are shared class-level state, so they persist across a
construction that raises. -/
def Counters := String → ℤ

/-- Advancing one counter: next(count) yields the current value and moves
the iterator to its successor. -/
def bumpCounter (c : Counters) (name : String) : Counters :=
  fun k => if k = name then c name + 1 else c k

/-- The first loop of Model.__init__: for every recognized input pair,
setattr through the Field descriptor (validate, then store).  A
validation failure raises at once: the remaining pairs are not processed
and the partially filled instance dict survives. -/
def initSetLoop (kinds : String → FieldKind) :
    List (String × PyVal) → StorageDict →
    Except String Unit × StorageDict
  | [], inst => (.ok (), inst)
  | (k, v) :: rest, inst =>
      match validate (kinds k) v with
      | .error e => (.error e, inst)
      | .ok v2 => initSetLoop kinds rest (setattrD inst k v2)

/-- The second loop of Model.__init__: for every defaulted field absent
from the input, setattr(next(provider)); the produced value also passes
through the descriptor and hence through validate. -/
def initDefaultLoop (kinds : String → FieldKind) :
    List String → StorageDict → Counters →
    Except String Unit × StorageDict × Counters
  | [], inst, cs => (.ok (), inst, cs)
  | k :: rest, inst, cs =>
      let produced := PyVal.int (cs k)
      let cs2 := bumpCounter cs k
      match validate (kinds k) produced with
      | .error e => (.error e, inst, cs2)
      | .ok v2 => initDefaultLoop kinds rest (setattrD inst k v2) cs2

/-- Model.__init__.  kwargs is the keyword mapping in caller order.  The
code first computes default_used as the defaulted names minus the input
names, then stores every recognized input pair (popping it from kwargs),
then draws and stores a default for every name in default_used, and only
then checks the leftover kwargs: any unknown name raises AttributeError
after all of that work is done.  Python iterates the two intermediate
sets in unspecified order; the embedding fixes caller order for the
recognized pairs and declaration order for the defaulted names, which the
stated properties do not depend on.  The storage dict keys an instance
value by its field name (the storage_name is a bijective decoration of
the field name). -/
def Model_init (m : Meta) (kinds : String → FieldKind)
    (kwargs : List (String × PyVal)) (cs : Counters) :
    Except String Unit × StorageDict × Counters :=
  let recognized := kwargs.filter (fun kv => m.fields.contains kv.1)
  let unknown := kwargs.filter (fun kv => !m.fields.contains kv.1)
  let defaultUsed :=
    m.defaults.filter (fun d => !(kwargs.map Prod.fst).contains d)
  let r1 := initSetLoop kinds recognized []
  match r1.1 with
  | .error e => (.error e, r1.2, cs)
  | .ok _ =>
      let r2 := initDefaultLoop kinds defaultUsed r1.2 cs
      match r2.1 with
      | .error e => (.error e, r2.2.1, r2.2.2)
      | .ok _ =>
          if unknown.isEmpty then (.ok (), r2.2.1, r2.2.2)
          else (.error "AttributeError: Unused attribute", r2.2.1, r2.2.2)

/-! ## The Test model of the source file -/

/-- The attribute dict of the Test class: name = StringField(),
id = IntegerField(primary_key=True, default=count(1)). -/
def testAttrs : List (String × Attr) :=
  [("name", .field .string false false),
   ("id", .field .integer true true)]

/-- The field kinds of the Test class. -/
def testKinds : String → FieldKind :=
  fun k => if k = "id" then .integer else .string

/-- The registered metadata of the Test class. -/
def testMeta : Meta :=
  { table := "Test", fields := ["name", "id"], primaryKey := some "id",
    defaults := ["id"] }

/-! ## Helper lemmas -/

theorem getattrD_setattrD_same (inst : StorageDict) (n : String) (v : PyVal) :
    getattrD (setattrD inst n v) n = some v := by
  induction inst with
  | nil => simp [setattrD, getattrD]
  | cons kv rest ih =>
      obtain ⟨k, w⟩ := kv
      by_cases hk : k = n <;> simp [setattrD, getattrD, hk, ih]

theorem getattrD_setattrD_ne (inst : StorageDict) (n k : String) (v : PyVal)
    (h : k ≠ n) : getattrD (setattrD inst n v) k = getattrD inst k := by
  have h2 : n ≠ k := Ne.symm h
  induction inst with
  | nil => simp [setattrD, getattrD, h2]
  | cons kv rest ih =>
      obtain ⟨k2, w⟩ := kv
      by_cases hk : k2 = n
      · subst hk
        simp [setattrD, getattrD, h2]
      · simp [setattrD, getattrD, hk, ih]

theorem strAppend_assoc (a b c : String) : a ++ b ++ c = a ++ (b ++ c) := by
  apply String.ext
  simp [String.data_append, List.append_assoc]

theorem pyJoin_cons_cons (sep x z : String) (l : List String) :
    pyJoin sep (x :: z :: l) = x ++ sep ++ pyJoin sep (z :: l) := rfl

theorem pyJoin_append_one (sep x y : String) (xs : List String) :
    pyJoin sep (x :: xs ++ [y]) = pyJoin sep (x :: xs) ++ sep ++ y := by
  induction xs generalizing x with
  | nil => rfl
  | cons z zs ih =>
      have e1 : pyJoin sep (x :: (z :: zs) ++ [y]) =
          x ++ sep ++ pyJoin sep (z :: zs ++ [y]) := rfl
      rw [e1, ih z, pyJoin_cons_cons]
      rw [strAppend_assoc (x ++ sep), strAppend_assoc (x ++ sep)]

theorem pyJoin_append_two (sep x y z : String) (xs : List String) :
    pyJoin sep (x :: xs ++ [y, z]) =
      pyJoin sep (x :: xs) ++ sep ++ y ++ sep ++ z := by
  have h1 : x :: xs ++ [y, z] = (x :: (xs ++ [y])) ++ [z] := by simp
  have h2 : x :: (xs ++ [y]) = x :: xs ++ [y] := by simp
  rw [h1, show (x :: (xs ++ [y])) ++ [z] = x :: (xs ++ [y]) ++ [z] from rfl,
     pyJoin_append_one, h2, pyJoin_append_one]

/-! ## C1 -/

/-- C1: on every execute call, a success commits and returns the affected
row count; any failure of the statement or of the commit rolls the
transaction back and re-raises the original error unchanged (the error
result is exactly the driver error — never swallowed); the connection is
released back to the pool on both paths (the release event closes every
trace). -/
theorem execute_commits_or_rolls_back (d : DriverOutcome) :
    (∀ n, d.stmt = .ok n → d.commitRes = .ok () →
      execute d = (.ok n, [.acquire, .execStmt, .commit, .release])) ∧
    (∀ e, (execute d).1 = .error e ↔
      (d.stmt = .error e ∨ ∃ n, d.stmt = .ok n ∧ d.commitRes = .error e)) ∧
    (∀ e, (execute d).1 = .error e →
      (execute d).2 = [.acquire, .execStmt, .rollback, .release]) ∧
    (execute d).2.getLast? = some .release := by
  obtain ⟨stmt, cr⟩ := d
  cases stmt with
  | error e1 => simp [execute]
  | ok n1 =>
      cases cr with
      | error e2 => simp [execute]
      | ok u => cases u; simp [execute]

/-- C1 witness: a concrete successful run commits and returns the count. -/
theorem execute_commits_or_rolls_back_witness :
    execute ⟨.ok 3, .ok ()⟩ =
      (.ok 3, [.acquire, .execStmt, .commit, .release]) :=
  (execute_commits_or_rolls_back ⟨.ok 3, .ok ()⟩).1 3 rfl rfl

/-! ## C2 -/

/-- Whether a class attribute is a Field with primary_key set. -/
def isPkAttr : Attr → Bool
  | .field _ true _ => true
  | _ => false

/-- Number of primary-key field declarations in an attribute dict. -/
def pkCount (attrs : List (String × Attr)) : Nat :=
  attrs.countP (fun ka => isPkAttr ka.2)

theorem pkCount_cons_pk (k : String) (fk : FieldKind) (hi : Bool)
    (rest : List (String × Attr)) :
    pkCount ((k, Attr.field fk true hi) :: rest) = pkCount rest + 1 := by
  simp [pkCount, List.countP_cons, isPkAttr]

theorem pkCount_cons_other (k : String) (rest : List (String × Attr)) :
    pkCount ((k, Attr.other) :: rest) = pkCount rest := by
  simp [pkCount, List.countP_cons, isPkAttr]

theorem pkCount_cons_nonpk (k : String) (fk : FieldKind) (hi : Bool)
    (rest : List (String × Attr)) :
    pkCount ((k, Attr.field fk false hi) :: rest) = pkCount rest := by
  simp [pkCount, List.countP_cons, isPkAttr]

theorem metaLoop_truthy_pk (attrs : List (String × Attr)) :
    ∀ (fields : List String) (pk : Option String) (defs : List String),
    optStrTruthy pk = true →
    (∃ ka ∈ attrs, isPkAttr ka.2 = true) →
    metaLoop attrs fields pk defs =
      .error "RuntimeError: Duplicated primary key" := by
  induction attrs with
  | nil =>
      intro _ _ _ _ hex
      simp at hex
  | cons ka rest ih =>
      intro fields pk defs hpk hex
      obtain ⟨k, a⟩ := ka
      match a with
      | .other =>
          have hex2 : ∃ ka ∈ rest, isPkAttr ka.2 = true := by
            rcases hex with ⟨x, hx, hpx⟩
            rcases List.mem_cons.mp hx with h | h
            · subst h; simp [isPkAttr] at hpx
            · exact ⟨x, h, hpx⟩
          simpa [metaLoop] using ih fields pk defs hpk hex2
      | .field fk false hi =>
          have hex2 : ∃ ka ∈ rest, isPkAttr ka.2 = true := by
            rcases hex with ⟨x, hx, hpx⟩
            rcases List.mem_cons.mp hx with h | h
            · subst h; simp [isPkAttr] at hpx
            · exact ⟨x, h, hpx⟩
          simpa [metaLoop] using
            ih (fields ++ [k]) pk (if hi then defs ++ [k] else defs) hpk hex2
      | .field fk true hi =>
          simp [metaLoop, hpk]

theorem metaLoop_two_pks (attrs : List (String × Attr)) :
    ∀ (fields : List String) (defs : List String),
    (∀ ka ∈ attrs, ka.2.isField = true → ka.1 ≠ "") →
    2 ≤ pkCount attrs →
    metaLoop attrs fields none defs =
      .error "RuntimeError: Duplicated primary key" := by
  induction attrs with
  | nil =>
      intro _ _ _ h
      simp [pkCount] at h
  | cons ka rest ih =>
      intro fields defs hnames hcount
      obtain ⟨k, a⟩ := ka
      match a with
      | .other =>
          rw [pkCount_cons_other] at hcount
          simpa [metaLoop] using
            ih fields defs (fun x hx h2 => hnames x (by simp [hx]) h2) hcount
      | .field fk false hi =>
          rw [pkCount_cons_nonpk] at hcount
          simpa [metaLoop] using
            ih (fields ++ [k]) (if hi then defs ++ [k] else defs)
              (fun x hx h2 => hnames x (by simp [hx]) h2) hcount
      | .field fk true hi =>
          rw [pkCount_cons_pk] at hcount
          have h1 : 1 ≤ pkCount rest := by omega
          have hex : ∃ ka ∈ rest, isPkAttr ka.2 = true := by
            simp [pkCount, isPkAttr] at h1 ⊢
            exact h1
          have hk : k ≠ "" := hnames (k, .field fk true hi) (by simp) rfl
          have htr : optStrTruthy (some k) = true := by
            simp [optStrTruthy, hk]
          simpa [metaLoop, optStrTruthy] using
            metaLoop_truthy_pk rest (fields ++ [k]) (some k)
              (if hi then defs ++ [k] else defs) htr hex

/-- C2: an entity-class declaration (field names are identifiers, hence
nonempty) in which two or more field definitions carry primary-key status
fails at registration with the duplicate-primary-key RuntimeError (the
SchemaError of the spec).  The raise happens inside the scan loop, before
the four class attributes are assigned, so the error result carries no
metadata: nothing is registered for the class. -/
theorem modelMeta_duplicate_primary_key (name : String)
    (attrs : List (String × Attr))
    (hnames : ∀ ka ∈ attrs, ka.2.isField = true → ka.1 ≠ "")
    (hdup : 2 ≤ pkCount attrs) :
    modelMeta name attrs = .error "RuntimeError: Duplicated primary key" := by
  unfold modelMeta
  rw [metaLoop_two_pks attrs [] [] hnames hdup]

/-- C2 witness: a concrete class with two primary-key fields fails to
register. -/
theorem modelMeta_duplicate_primary_key_witness :
    modelMeta "T"
      [("a", .field .integer true false), ("b", .field .string true false)] =
      .error "RuntimeError: Duplicated primary key" :=
  modelMeta_duplicate_primary_key "T"
    [("a", .field .integer true false), ("b", .field .string true false)]
    (by decide) (by decide)

/-! ## C3 -/

/-- C3: assigning a value outside the declared type family fails with the
validation error and leaves the instance storage exactly as it was;
assigning an in-family value stores it, and a get then returns that last
validated value. -/
theorem fieldSet_validate_first (k : FieldKind) (sn : String)
    (inst : StorageDict) (v : PyVal) :
    (k.dtypeCheck v = false →
      fieldSet k sn inst v = (inst, some "TypeError") ∧
      fieldGet sn (fieldSet k sn inst v).1 = fieldGet sn inst) ∧
    (k.dtypeCheck v = true →
      (fieldSet k sn inst v).2 = none ∧
      fieldGet sn (fieldSet k sn inst v).1 = some v) := by
  constructor
  · intro h
    simp [fieldSet, validate, h]
  · intro h
    simp [fieldSet, validate, h, fieldGet, getattrD_setattrD_same]

/-- C3 witness: a concrete out-of-family assignment (a string into an
IntegerField slot holding 1) errors and leaves the slot at 1; a concrete
in-family assignment stores the value. -/
theorem fieldSet_validate_first_witness :
    (fieldSet .integer "s" [("s", .int 1)] (.str "x") =
      ([("s", .int 1)], some "TypeError") ∧
     fieldGet "s" (fieldSet .integer "s" [("s", .int 1)] (.str "x")).1 =
      fieldGet "s" [("s", .int 1)]) ∧
    ((fieldSet .integer "s" [("s", .int 1)] (.int 2)).2 = none ∧
     fieldGet "s" (fieldSet .integer "s" [("s", .int 1)] (.int 2)).1 =
      some (.int 2)) :=
  ⟨(fieldSet_validate_first .integer "s" [("s", .int 1)] (.str "x")).1 rfl,
   (fieldSet_validate_first .integer "s" [("s", .int 1)] (.int 2)).2 rfl⟩

/-! ## C5 -/

/-- C5: the code puts a backquoted placeholder where the claim requires
the literal filter field name, and pushes the field name itself into the
positional args in front of the value; the orderby column is handled the
same way.  Evaluating the generator at a one-filter call and at an
orderby call exhibits the divergence. -/
theorem get_sql_parameterizes_identifiers :
    Model_get_sql "Test" [("name", .str "x")] none none =
      .ok ("select * from `Test` where `?`=?;",
           [.str "name", .str "x"]) ∧
    Model_get_sql "Test" [] (some "id") none =
      .ok ("select * from `Test` order by `?`;", [.str "id"]) :=
  ⟨rfl, rfl⟩

/-! ## C6 -/

/-- C6: FloatField.validate checks isinstance against numbers.Rational,
which Python floats fail, so the Rational family rejects the
floating-point value 3.14 while accepting the integral value 3; String
accepts exactly strings and Boolean exactly booleans. -/
theorem float_field_rejects_floats :
    validate .float (.float (314 / 100)) = .error "TypeError" ∧
    validate .float (.int 3) = .ok (.int 3) ∧
    validate .string (.str "x") = .ok (.str "x") ∧
    validate .string (.int 0) = .error "TypeError" ∧
    validate .boolean (.bool true) = .ok (.bool true) ∧
    validate .boolean (.int 1) = .error "TypeError" :=
  ⟨rfl, rfl, rfl, rfl, rfl, rfl⟩

/-! ## C9 -/

/-- C9: every boolean passes IntegerField validation (bool is a subclass
of int, hence numbers.Integral) and is stored by the descriptor, while
BooleanField validation rejects every non-boolean integer. -/
theorem integer_accepts_bool_not_conversely :
    (∀ (b : Bool) (sn : String) (inst : StorageDict),
      validate .integer (.bool b) = .ok (.bool b) ∧
      fieldSet .integer sn inst (.bool b) =
        (setattrD inst sn (.bool b), none)) ∧
    (∀ n : ℤ, validate .boolean (.int n) = .error "TypeError") :=
  ⟨fun _ _ _ => ⟨rfl, rfl⟩, fun _ => rfl⟩

/-! ## C4 -/

/-- The names of the Field attributes of a class dict, in declaration
order. -/
def fieldNames (attrs : List (String × Attr)) : List String :=
  (attrs.filter (fun ka => ka.2.isField)).map Prod.fst

theorem metaLoop_fields (attrs : List (String × Attr)) :
    ∀ fields pk defs f p d,
    metaLoop attrs fields pk defs = .ok (f, p, d) →
    f = fields ++ fieldNames attrs := by
  induction attrs with
  | nil =>
      intro fields pk defs f p d h
      simp [metaLoop] at h
      simp [fieldNames, h.1.symm]
  | cons ka rest ih =>
      intro fields pk defs f p d h
      obtain ⟨k, a⟩ := ka
      match a with
      | .other =>
          simp only [metaLoop] at h
          have := ih fields pk defs f p d h
          simpa [fieldNames, Attr.isField] using this
      | .field fk false hi =>
          simp only [metaLoop, Bool.false_eq_true, if_false] at h
          have := ih (fields ++ [k]) pk (if hi then defs ++ [k] else defs)
            f p d h
          simp [fieldNames, Attr.isField] at this ⊢
          simp [this]
      | .field fk true hi =>
          simp only [metaLoop, if_true] at h
          by_cases hpk : optStrTruthy pk = true
          · simp [hpk] at h
          · simp only [hpk, Bool.false_eq_true, if_false] at h
            have := ih (fields ++ [k]) (some k)
              (if hi then defs ++ [k] else defs) f p d h
            simp [fieldNames, Attr.isField] at this ⊢
            simp [this]

theorem modelMeta_ok (name : String) (attrs : List (String × Attr))
    (m : Meta) (h : modelMeta name attrs = .ok m) :
    m.table = name ∧ m.fields = fieldNames attrs := by
  unfold modelMeta at h
  cases hml : metaLoop attrs [] none [] with
  | error e => rw [hml] at h; cases h
  | ok triple =>
      obtain ⟨f, p, d⟩ := triple
      rw [hml] at h
      cases h
      exact ⟨rfl, by simpa using metaLoop_fields attrs [] none [] f p d hml⟩

/-- C4 counterexample: on the Test class (fields name and id, id the
primary key), the code includes the primary key in the SET clause and its
value twice in the args, so the claimed template and args (built here by
specUpdateSql and specUpdateArgs from the words of the spec) differ from
what the code produces. -/
theorem update_includes_pk_counterexample :
    updateSql testMeta =
      "update `Test` set `name`=?, `id`=? where `id`=?;" ∧
    specUpdateSql testMeta =
      "update `Test` set `name`=? where `id`=?;" ∧
    updateSql testMeta ≠ specUpdateSql testMeta ∧
    updateArgs testMeta (fun s => if s = "id" then .int 7 else .str "a") =
      [.str "a", .int 7, .int 7] ∧
    specUpdateArgs testMeta
      (fun s => if s = "id" then .int 7 else .str "a") =
      [.str "a", .int 7] :=
  ⟨rfl, rfl, by decide, rfl, rfl⟩

/-- C4 amended: update() produces the template
update [table] set f1=?,f2=?,... where [primary_key]=? in which the SET
clause lists ALL declared fields — the primary key included — in
declaration order, and the args are all field values in declaration order
followed by the primary key value (which therefore appears twice). -/
theorem update_all_fields_in_declared_order (name : String)
    (attrs : List (String × Attr)) (m : Meta) (vals : String → PyVal)
    (h : modelMeta name attrs = .ok m) :
    m.fields = fieldNames attrs ∧
    updateSql m = "update `" ++ name ++ "` set " ++
      create_kwargs_string (fieldNames attrs) ++
      " where `" ++ m.pkStr ++ "`=?;" ∧
    updateArgs m vals = (fieldNames attrs).map vals ++ [vals m.pkStr] := by
  obtain ⟨htable, hfields⟩ := modelMeta_ok name attrs m h
  refine ⟨hfields, ?_, ?_⟩
  · rw [updateSql, htable, hfields]
  · rw [updateArgs, hfields]

/-- C4 amended witness: the Test class instantiation. -/
theorem update_all_fields_in_declared_order_witness :
    testMeta.fields = fieldNames testAttrs ∧
    updateSql testMeta = "update `" ++ "Test" ++ "` set " ++
      create_kwargs_string (fieldNames testAttrs) ++
      " where `" ++ testMeta.pkStr ++ "`=?;" ∧
    updateArgs testMeta (fun _ => PyVal.int 0) =
      (fieldNames testAttrs).map (fun _ => PyVal.int 0) ++ [PyVal.int 0] :=
  update_all_fields_in_declared_order "Test" testAttrs testMeta
    (fun _ => PyVal.int 0) rfl

/-! ## C7 -/

theorem pyJoin_limit_one (xs : List String) (h : xs ≠ []) :
    pyJoin " " (xs ++ ["limit", "?"]) ++ ";" = pyJoin " " xs ++ " limit ?;" := by
  cases xs with
  | nil => exact absurd rfl h
  | cons x t =>
      rw [pyJoin_append_two]
      simp only [strAppend_assoc]
      congr 1

theorem pyJoin_limit_two (xs : List String) (h : xs ≠ []) :
    pyJoin " " (xs ++ ["limit", "?,?"]) ++ ";" =
      pyJoin " " xs ++ " limit ?,?;" := by
  cases xs with
  | nil => exact absurd rfl h
  | cons x t =>
      rw [pyJoin_append_two]
      simp only [strAppend_assoc]
      congr 1

theorem getSqlBase_ne_nil (table : String)
    (filters : List (String × PyVal)) (orderby : Option String) :
    (getSqlBase table filters orderby).1 ≠ [] := by
  unfold getSqlBase
  rcases orderby with _ | ob
  · by_cases hf : filters.length ≠ 0 <;> simp [hf]
  · by_cases hf : filters.length ≠ 0 <;> by_cases hob : ob ≠ "" <;>
      simp [hf, hob]

/-- C7 counterexample: a falsy limit never reaches the type dispatch.
The empty list is neither an integer nor a two-element sequence, yet the
call returns successfully (no QueryShapeError) and issues plain SQL; the
integer 0 is an integer, yet no limit clause and no arg are appended. -/
theorem limit_falsy_skipped_counterexample :
    ((PyVal.list []).isInstInt = false ∧
     (PyVal.list []).pyLen = some 0 ∧
     Model_get_sql "Test" [] none (some (.list [])) =
       .ok ("select * from `Test`;", [])) ∧
    ((PyVal.int 0).isInstInt = true ∧
     Model_get_sql "Test" [] none (some (.int 0)) =
       .ok ("select * from `Test`;", [])) :=
  ⟨⟨rfl, rfl, rfl⟩, ⟨rfl, rfl⟩⟩

/-- C7 amended: the limit dispatch applies only to truthy limit values
(Python if limit).  A falsy limit — 0, False, an empty sequence — is
treated as if absent.  For a truthy limit: one that is neither an int nor
a two-element sequence raises the ValueError (the QueryShapeError of the
spec) and no select is issued; an int appends limit ? with the int as the
final arg; a two-element sequence appends limit ?,? with its two elements
as the final args. -/
theorem limit_truthiness_behavior (table : String)
    (filters : List (String × PyVal)) (orderby : Option String)
    (l : PyVal) :
    (l.truthy = false →
      Model_get_sql table filters orderby (some l) =
        Model_get_sql table filters orderby none) ∧
    (l.truthy = true → l.isInstInt = false →
      (l.isInstSequence && l.pyLen == some 2) = false →
      Model_get_calls table filters orderby (some l) =
        ([], .error "ValueError: limit must be an integer or binary sequence")) ∧
    (l.truthy = true → l.isInstInt = true →
      ∃ body args,
        Model_get_sql table filters orderby none = .ok (body ++ ";", args) ∧
        Model_get_sql table filters orderby (some l) =
          .ok (body ++ " limit ?;", args ++ [l])) ∧
    (l.truthy = true → l.isInstInt = false → l.isInstSequence = true →
      l.pyLen = some 2 →
      ∃ body args,
        Model_get_sql table filters orderby none = .ok (body ++ ";", args) ∧
        Model_get_sql table filters orderby (some l) =
          .ok (body ++ " limit ?,?;", args ++ l.pyList)) := by
  refine ⟨?_, ?_, ?_, ?_⟩
  · intro h
    simp [Model_get_sql, limitStep, h]
  · intro h1 h2 h3
    simp [Model_get_calls, Model_get_sql, limitStep, h1, h2, h3]
  · intro h1 h2
    refine ⟨pyJoin " " (getSqlBase table filters orderby).1,
      (getSqlBase table filters orderby).2, rfl, ?_⟩
    simp only [Model_get_sql, limitStep, h1, h2, if_true]
    rw [pyJoin_limit_one _ (getSqlBase_ne_nil table filters orderby)]
  · intro h1 h2 h3 h4
    refine ⟨pyJoin " " (getSqlBase table filters orderby).1,
      (getSqlBase table filters orderby).2, rfl, ?_⟩
    simp only [Model_get_sql, limitStep, h1, h2, h3, h4, if_true,
      Bool.false_eq_true, if_false, Bool.true_and, beq_self_eq_true]
    rw [pyJoin_limit_two _ (getSqlBase_ne_nil table filters orderby)]

/-- C7 amended witness: a truthy integer limit on a concrete call
appends the limit clause and the arg. -/
theorem limit_truthiness_behavior_witness :
    ∃ body args,
      Model_get_sql "Test" [] none none = .ok (body ++ ";", args) ∧
      Model_get_sql "Test" [] none (some (.int 5)) =
        .ok (body ++ " limit ?;", args ++ [.int 5]) :=
  (limit_truthiness_behavior "Test" [] none (.int 5)).2.2.1 rfl rfl

/-! ## C8 -/

/-- C8: for insert, update and delete, an affected-row count below 1
yields a successful result whose trace is the single execute call
followed by the warning (no error raised, the statement issued exactly
once, no retry); a count of at least 1 yields the single execute call and
no warning. -/
theorem mutation_low_count_warns (m : Meta) (vals : String → PyVal)
    (n : ℤ) :
    (n < 1 →
      Model_insert m vals (.ok n) =
        .ok [.execCall (insertSql m) (insertArgs m vals),
             .warnLow (vals m.pkStr)] ∧
      Model_update m vals (.ok n) =
        .ok [.execCall (updateSql m) (updateArgs m vals),
             .warnLow (vals m.pkStr)] ∧
      Model_delete m vals (.ok n) =
        .ok [.execCall (deleteSql m) (deleteArgs m vals),
             .warnLow (vals m.pkStr)]) ∧
    (1 ≤ n →
      Model_insert m vals (.ok n) =
        .ok [.execCall (insertSql m) (insertArgs m vals)] ∧
      Model_update m vals (.ok n) =
        .ok [.execCall (updateSql m) (updateArgs m vals)] ∧
      Model_delete m vals (.ok n) =
        .ok [.execCall (deleteSql m) (deleteArgs m vals)]) := by
  constructor
  · intro h
    refine ⟨?_, ?_, ?_⟩ <;>
      simp [Model_insert, Model_update, Model_delete, mutationOp, h]
  · intro h
    have h2 : ¬n < 1 := by omega
    refine ⟨?_, ?_, ?_⟩ <;>
      simp [Model_insert, Model_update, Model_delete, mutationOp, h2]

/-- C8 witness: on the Test model, a zero affected count warns and a
count of one does not, with the concrete insert statement in the trace. -/
theorem mutation_low_count_warns_witness :
    Model_insert testMeta (fun _ => .int 0) (.ok 0) =
      .ok [.execCall (insertSql testMeta)
             (insertArgs testMeta (fun _ => .int 0)),
           .warnLow (.int 0)] ∧
    Model_insert testMeta (fun _ => .int 0) (.ok 1) =
      .ok [.execCall (insertSql testMeta)
             (insertArgs testMeta (fun _ => .int 0))] :=
  ⟨((mutation_low_count_warns testMeta (fun _ => .int 0) 0).1
      (by decide)).1,
   ((mutation_low_count_warns testMeta (fun _ => .int 0) 1).2
      (by decide)).1⟩

/-! ## C10 -/

theorem initSetLoop_ok (kinds : String → FieldKind)
    (pairs : List (String × PyVal)) :
    ∀ inst, (∀ kv ∈ pairs, (kinds kv.1).dtypeCheck kv.2 = true) →
    (initSetLoop kinds pairs inst).1 = .ok () := by
  induction pairs with
  | nil => intro inst _; rfl
  | cons kv rest ih =>
      intro inst hv
      obtain ⟨k, v⟩ := kv
      have hk : (kinds k).dtypeCheck v = true := hv (k, v) (by simp)
      simp only [initSetLoop, validate, hk, if_true]
      exact ih (setattrD inst k v) (fun x hx => hv x (by simp [hx]))

theorem initSetLoop_preserve (kinds : String → FieldKind)
    (pairs : List (String × PyVal)) :
    ∀ inst k, k ∉ pairs.map Prod.fst →
    getattrD (initSetLoop kinds pairs inst).2 k = getattrD inst k := by
  induction pairs with
  | nil => intro inst k _; rfl
  | cons kv rest ih =>
      intro inst k hk
      obtain ⟨k2, v⟩ := kv
      have hne : k ≠ k2 := by
        intro he
        exact hk (by simp [he])
      have hrest : k ∉ rest.map Prod.fst := by
        intro he
        exact hk (by simp [he])
      simp only [initSetLoop]
      cases hval : validate (kinds k2) v with
      | error e => rfl
      | ok v2 =>
          rw [ih (setattrD inst k2 v2) k hrest]
          have hv2 : v2 = v := by
            unfold validate at hval
            split at hval
            · cases hval; rfl
            · cases hval
          rw [hv2, getattrD_setattrD_ne inst k2 k v hne]

theorem initSetLoop_mem (kinds : String → FieldKind)
    (pairs : List (String × PyVal)) :
    ∀ inst, (∀ kv ∈ pairs, (kinds kv.1).dtypeCheck kv.2 = true) →
    (pairs.map Prod.fst).Nodup →
    ∀ k v, (k, v) ∈ pairs →
    getattrD (initSetLoop kinds pairs inst).2 k = some v := by
  induction pairs with
  | nil => intro inst _ _ k v h; cases h
  | cons kv rest ih =>
      intro inst hv hnd k v hmem
      obtain ⟨k2, v2⟩ := kv
      have hk2 : (kinds k2).dtypeCheck v2 = true := hv (k2, v2) (by simp)
      simp only [initSetLoop, validate, hk2, if_true]
      rcases List.mem_cons.mp hmem with h | h
      · cases h
        have hnot : k ∉ rest.map Prod.fst := by
          simp only [List.map_cons, List.nodup_cons] at hnd
          exact hnd.1
        rw [initSetLoop_preserve kinds rest _ k hnot,
          getattrD_setattrD_same]
      · exact ih (setattrD inst k2 v2)
          (fun x hx => hv x (by simp [hx]))
          (by simp only [List.map_cons, List.nodup_cons] at hnd
              exact hnd.2) k v h

theorem initDefaultLoop_ok (kinds : String → FieldKind)
    (names : List String) :
    ∀ inst cs, (∀ d ∈ names, kinds d = .integer) →
    (initDefaultLoop kinds names inst cs).1 = .ok () := by
  induction names with
  | nil => intro inst cs _; rfl
  | cons k rest ih =>
      intro inst cs hint
      have hk : kinds k = .integer := hint k (by simp)
      simp only [initDefaultLoop, validate, hk, FieldKind.dtypeCheck,
        PyVal.isInstIntegral, if_true]
      exact ih _ _ (fun d hd => hint d (by simp [hd]))

theorem initDefaultLoop_preserve (kinds : String → FieldKind)
    (names : List String) :
    ∀ inst cs k, k ∉ names →
    getattrD (initDefaultLoop kinds names inst cs).2.1 k =
      getattrD inst k := by
  induction names with
  | nil => intro inst cs k _; rfl
  | cons k2 rest ih =>
      intro inst cs k hk
      have hne : k ≠ k2 := fun he => hk (by simp [he])
      have hrest : k ∉ rest := fun he => hk (by simp [he])
      simp only [initDefaultLoop]
      cases hval : validate (kinds k2) (PyVal.int (cs k2)) with
      | error e => rfl
      | ok v2 =>
          rw [ih _ _ k hrest]
          have hv2 : v2 = PyVal.int (cs k2) := by
            unfold validate at hval
            split at hval
            · cases hval; rfl
            · cases hval
          rw [hv2, getattrD_setattrD_ne inst k2 k _ hne]

theorem initDefaultLoop_counters (kinds : String → FieldKind)
    (names : List String) :
    ∀ inst cs, (∀ d ∈ names, kinds d = .integer) → names.Nodup →
    ∀ d, (initDefaultLoop kinds names inst cs).2.2 d =
      if d ∈ names then cs d + 1 else cs d := by
  induction names with
  | nil => intro inst cs _ _ d; simp [initDefaultLoop]
  | cons k rest ih =>
      intro inst cs hint hnd d
      have hk : kinds k = .integer := hint k (by simp)
      simp only [initDefaultLoop, validate, hk, FieldKind.dtypeCheck,
        PyVal.isInstIntegral, if_true]
      rw [ih _ _ (fun x hx => hint x (by simp [hx]))
        (List.nodup_cons.mp hnd).2 d]
      by_cases hdk : d = k
      · subst hdk
        have hnot : d ∉ rest := (List.nodup_cons.mp hnd).1
        simp [hnot, bumpCounter]
      · simp [bumpCounter, hdk, List.mem_cons]

/-- C10: constructing an instance from an input containing an unknown key
is not atomic.  When every recognized value is in-family and every
defaulted field is an IntegerField (as required for its counter default
to validate), the unknown-key AttributeError is raised only at the end:
all recognized fields have already been validated and stored in the
instance dict, and every default provider of a field omitted from the
input has already been advanced by one — its value is consumed by the
failed construction, so the next successful construction skips it. -/
theorem init_unknown_key_not_atomic (m : Meta) (kinds : String → FieldKind)
    (kwargs : List (String × PyVal)) (cs : Counters)
    (hunk : (kwargs.filter (fun kv => !m.fields.contains kv.1)).isEmpty
      = false)
    (hval : ∀ kv ∈ kwargs, m.fields.contains kv.1 = true →
      (kinds kv.1).dtypeCheck kv.2 = true)
    (hint : ∀ d ∈ m.defaults, kinds d = .integer)
    (hkeys : (kwargs.map Prod.fst).Nodup)
    (hdefs : m.defaults.Nodup) :
    (Model_init m kinds kwargs cs).1 =
      .error "AttributeError: Unused attribute" ∧
    (∀ kv ∈ kwargs, m.fields.contains kv.1 = true →
      getattrD (Model_init m kinds kwargs cs).2.1 kv.1 = some kv.2) ∧
    (∀ d, (Model_init m kinds kwargs cs).2.2 d =
      if d ∈ m.defaults ∧ d ∉ kwargs.map Prod.fst then cs d + 1
      else cs d) := by
  have hvrec : ∀ kv ∈ kwargs.filter (fun kv => m.fields.contains kv.1),
      (kinds kv.1).dtypeCheck kv.2 = true := by
    intro kv hkv
    have := List.mem_filter.mp hkv
    exact hval kv this.1 this.2
  have hok1 := initSetLoop_ok kinds
    (kwargs.filter (fun kv => m.fields.contains kv.1)) [] hvrec
  have hintU : ∀ d ∈ m.defaults.filter
      (fun d => !(kwargs.map Prod.fst).contains d), kinds d = .integer := by
    intro d hd
    exact hint d (List.mem_filter.mp hd).1
  have hok2 := initDefaultLoop_ok kinds
    (m.defaults.filter (fun d => !(kwargs.map Prod.fst).contains d))
    (initSetLoop kinds
      (kwargs.filter (fun kv => m.fields.contains kv.1)) []).2 cs hintU
  have hmemU : ∀ d, d ∈ m.defaults.filter
      (fun d => !(kwargs.map Prod.fst).contains d) ↔
      d ∈ m.defaults ∧ d ∉ kwargs.map Prod.fst := by
    intro d
    simp [List.mem_filter]
  refine ⟨?_, ?_, ?_⟩
  · simp only [Model_init, hok1, hok2, hunk, Bool.false_eq_true, if_false]
  · intro kv hkv hcont
    have hkmem : kv.1 ∈ kwargs.map Prod.fst := List.mem_map_of_mem _ hkv
    have hnotU : kv.1 ∉ m.defaults.filter
        (fun d => !(kwargs.map Prod.fst).contains d) := by
      intro hc
      exact ((hmemU kv.1).mp hc).2 hkmem
    have hrecmem : (kv.1, kv.2) ∈
        kwargs.filter (fun kv => m.fields.contains kv.1) := by
      rw [List.mem_filter]
      exact ⟨hkv, hcont⟩
    have hsub : List.Sublist
        (kwargs.filter (fun kv => m.fields.contains kv.1)) kwargs :=
      List.filter_sublist _
    have hndrec : ((kwargs.filter
        (fun kv => m.fields.contains kv.1)).map Prod.fst).Nodup :=
      (hsub.map Prod.fst).nodup hkeys
    simp only [Model_init, hok1, hok2, hunk, Bool.false_eq_true, if_false]
    rw [initDefaultLoop_preserve kinds _ _ _ kv.1 hnotU]
    exact initSetLoop_mem kinds _ [] hvrec hndrec kv.1 kv.2 hrecmem
  · intro d
    simp only [Model_init, hok1, hok2, hunk, Bool.false_eq_true, if_false]
    rw [initDefaultLoop_counters kinds _ _ _ hintU (hdefs.filter _) d]
    by_cases hc : d ∈ m.defaults ∧ d ∉ kwargs.map Prod.fst
    · rw [if_pos ((hmemU d).mpr hc), if_pos hc]
    · rw [if_neg (fun hx => hc ((hmemU d).mp hx)), if_neg hc]

/-- C10 witness: on the Test model, constructing with a valid name and an
unknown key bogus raises the unknown-attribute error, yet the name value
is stored and the id counter (started at 1) has advanced to 2 — the next
successful construction would skip 1. -/
theorem init_unknown_key_not_atomic_witness :
    (Model_init testMeta testKinds
      [("name", .str "a"), ("bogus", .int 0)] (fun _ => 1)).1 =
      .error "AttributeError: Unused attribute" ∧
    getattrD (Model_init testMeta testKinds
      [("name", .str "a"), ("bogus", .int 0)] (fun _ => 1)).2.1 "name" =
      some (.str "a") ∧
    (Model_init testMeta testKinds
      [("name", .str "a"), ("bogus", .int 0)] (fun _ => 1)).2.2 "id" = 2 := by
  have h := init_unknown_key_not_atomic testMeta testKinds
    [("name", .str "a"), ("bogus", .int 0)] (fun _ => 1)
    (by decide)
    (by intro kv hkv hc
        rcases List.mem_cons.mp hkv with h1 | h1
        · subst h1; rfl
        · rcases List.mem_cons.mp h1 with h2 | h2
          · subst h2; cases hc
          · cases h2)
    (by decide) (by decide) (by decide)
  refine ⟨h.1, ?_, ?_⟩
  · exact h.2.1 ("name", .str "a") (List.Mem.head _) rfl
  · have h3 := h.2.2 "id"
    rw [if_pos ⟨by decide, by decide⟩] at h3
    rw [h3]
    decide

end Indigo
